import Mathlib

/-!
Verification development for the diem state-sync module
(src/state-sync/src/state_sync.rs): a shallow embedding of the
SyncingState snapshot, the client facade (sync_to, commit), the bootstrap
entry points, and spec-modelled fragments of the collaborators that are
not part of this crate (the diem-types ledger-info verifier, the
executor-types trees, the coordinator event loop for sync requests and
the wait-until-initialized logic).
-/

/-- Modelled from the spec: one validator entry of a validator set
(diem-types, not under src): account address, public key and voting power. -/
structure ValidatorConsensusInfo where
  address : Nat
  public_key : Nat
  voting_power : Nat
  deriving DecidableEq

/-- Modelled from the spec: a validator verifier (diem-types, not under src):
the validator set together with the voting power needed for quorum. -/
structure ValidatorVerifier where
  validator_infos : List ValidatorConsensusInfo
  quorum_voting_power : Nat
  deriving DecidableEq

/-- Epoch state: epoch number plus the verifier for that epoch
(diem-types epoch_state, not under src; shape taken from the spec). -/
structure EpochState where
  epoch : Nat
  verifier : ValidatorVerifier
  deriving DecidableEq

/-- Ledger info: a certified statement of the ledger at a version, carrying
the epoch, the version, a hash standing for the signed consensus data, and
the optional next-epoch state at epoch boundaries (diem-types, not under
src; shape taken from the spec and the glossary). -/
structure LedgerInfo where
  epoch : Nat
  version : Nat
  consensus_data_hash : Nat
  next_epoch_state : Option EpochState
  deriving DecidableEq

/-- Ledger info together with the signatures collected for it, as a list of
(address, signature) pairs. -/
structure LedgerInfoWithSignatures where
  ledger_info : LedgerInfo
  signatures : List (Nat × Nat)
  deriving DecidableEq

/-- Modelled from the spec: validity of one signature by a public key over
the signed consensus data, abstracted as an injective pairing. -/
def sigValid (public_key msgHash sig : Nat) : Bool :=
  sig == Nat.pair public_key msgHash

/-- Modelled from the spec: the total voting power of the validators whose
attached signature over the ledger info is valid. -/
def signedVotingPower (vv : ValidatorVerifier) (li : LedgerInfoWithSignatures) : Nat :=
  ((vv.validator_infos.filter fun vi =>
      li.signatures.any fun p =>
        p.1 == vi.address && sigValid vi.public_key li.ledger_info.consensus_data_hash p.2).map
    (fun vi => vi.voting_power)).sum

/-- Modelled from the spec: the epoch-change Verifier of diem-types (not
under src): verification checks that the ledger info belongs to this epoch
state and that the attached signatures meet quorum under the validator set
and public keys of this epoch state; it fails on epoch mismatch or
insufficient signed voting power. -/
def EpochState.verify (e : EpochState) (li : LedgerInfoWithSignatures) : Except String Unit :=
  if li.ledger_info.epoch ≠ e.epoch then Except.error "epoch mismatch"
  else if signedVotingPower e.verifier li < e.verifier.quorum_voting_power then
    Except.error "insufficient signed voting power"
  else Except.ok ()

/-- Modelled from the spec: the executor-types ExecutedTrees (not under
src), reduced to the one accessor state_sync.rs uses: the version of the
highest locally materialized state, or none for an empty tree. -/
structure ExecutedTrees where
  version : Option Nat
  deriving DecidableEq

/-- SyncingState of state_sync.rs: the committed ledger info, the synced
trees, and the trusted epoch state. -/
structure SyncingState where
  committed_ledger_info : LedgerInfoWithSignatures
  synced_trees : ExecutedTrees
  trusted_epoch_state : EpochState
  deriving DecidableEq

/-- SyncingState::new of state_sync.rs: the trusted epoch state is the
next-epoch state embedded in the committed ledger info when present,
otherwise the epoch state passed in. -/
def SyncingState.new (committed_ledger_info : LedgerInfoWithSignatures)
    (synced_trees : ExecutedTrees) (current_epoch_state : EpochState) : SyncingState :=
  { committed_ledger_info := committed_ledger_info
    synced_trees := synced_trees
    trusted_epoch_state :=
      committed_ledger_info.ledger_info.next_epoch_state.getD current_epoch_state }

/-- SyncingState::committed_epoch of state_sync.rs. -/
def SyncingState.committed_epoch (s : SyncingState) : Nat :=
  s.committed_ledger_info.ledger_info.epoch

/-- SyncingState::committed_version of state_sync.rs. -/
def SyncingState.committed_version (s : SyncingState) : Nat :=
  s.committed_ledger_info.ledger_info.version

/-- SyncingState::synced_version of state_sync.rs:
self.synced_trees.version().unwrap_or(0). -/
def SyncingState.synced_version (s : SyncingState) : Nat :=
  s.synced_trees.version.getD 0

/-- SyncingState::trusted_epoch of state_sync.rs. -/
def SyncingState.trusted_epoch (s : SyncingState) : Nat :=
  s.trusted_epoch_state.epoch

/-- SyncingState::verify_ledger_info of state_sync.rs:
self.trusted_epoch_state.verify(ledger_info). -/
def SyncingState.verify_ledger_info (s : SyncingState)
    (li : LedgerInfoWithSignatures) : Except String Unit :=
  s.trusted_epoch_state.verify li

/-- The committed_epoch method in borrow-passing form: the Rust method takes
a shared borrow of self, reads a field and returns self unmodified. -/
def SyncingState.committed_epochM (s : SyncingState) : Nat × SyncingState :=
  (s.committed_ledger_info.ledger_info.epoch, s)

/-- The committed_ledger_info method in borrow-passing form: it returns a
clone of the field and leaves self unmodified. -/
def SyncingState.committed_ledger_infoM (s : SyncingState) :
    LedgerInfoWithSignatures × SyncingState :=
  (s.committed_ledger_info, s)

/-- The committed_version method in borrow-passing form. -/
def SyncingState.committed_versionM (s : SyncingState) : Nat × SyncingState :=
  (s.committed_ledger_info.ledger_info.version, s)

/-- The synced_version method in borrow-passing form. -/
def SyncingState.synced_versionM (s : SyncingState) : Nat × SyncingState :=
  (s.synced_trees.version.getD 0, s)

/-- The trusted_epoch method in borrow-passing form. -/
def SyncingState.trusted_epochM (s : SyncingState) : Nat × SyncingState :=
  (s.trusted_epoch_state.epoch, s)

/-- The verify_ledger_info method in borrow-passing form: it only reads the
trusted epoch state and returns self unmodified. -/
def SyncingState.verify_ledger_infoM (s : SyncingState)
    (li : LedgerInfoWithSignatures) : Except String Unit × SyncingState :=
  (s.trusted_epoch_state.verify li, s)

/-- CommitResponse of diem-mempool (not under src), shape taken from the
spec: a message string, empty on success. -/
structure CommitResponse where
  msg : String
  deriving DecidableEq

/-- The possible outcomes of awaiting the commit callback in
StateSyncClient::commit, mirroring timeout(Duration::from_secs(5), rcv):
the timeout elapses, the oneshot sender is dropped, the coordinator replies
with an error, or the coordinator replies with a CommitResponse. -/
inductive CommitCallbackOutcome where
  | timedOut
  | canceled
  | coordinatorFailure (msg : String)
  | response (r : CommitResponse)
  deriving DecidableEq

/-- The distinct error values StateSyncClient::commit can produce, one per
format_err call site reachable from its body. -/
inductive CommitError where
  | ackTimeout
  | callbackDropped
  | coordinatorFailed (msg : String)
  | commitRejected (msg : String)
  deriving DecidableEq

/-- The timeout bound of StateSyncClient::commit, from
Duration::from_secs(5) in state_sync.rs. -/
def commitAckTimeoutSecs : Nat := 5

/-- StateSyncClient::commit of state_sync.rs, after the enqueue: the match
on the timed-out callback. A timeout yields the no-ack error; a received
CommitResponse yields an error carrying the message when it is non-empty
and success when it is empty; the two q-marks of resp propagate the
cancellation and coordinator errors. -/
def handleCommitCallback : CommitCallbackOutcome → Except CommitError Unit
  | CommitCallbackOutcome.timedOut => Except.error CommitError.ackTimeout
  | CommitCallbackOutcome.canceled => Except.error CommitError.callbackDropped
  | CommitCallbackOutcome.coordinatorFailure m =>
      Except.error (CommitError.coordinatorFailed m)
  | CommitCallbackOutcome.response r =>
      if r.msg ≠ "" then Except.error (CommitError.commitRejected r.msg)
      else Except.ok ()

/-- The outcome of running a bootstrap entry point of state_sync.rs: either
a panic (an expect fired, the process dies) or a running instance; the
coordinator task is spawned only on the running outcome. -/
inductive BootstrapOutcome where
  | fatalPanic (msg : String)
  | running (initial_state : SyncingState)
  deriving DecidableEq

/-- The expect message on get_local_storage_state in
StateSync::bootstrap_with_executor_proxy. -/
def storageStartFailureMsg : String :=
  "[state sync] Start failure: cannot sync with storage."

/-- The expect message on StateSyncCoordinator::new in
StateSync::bootstrap_with_executor_proxy. -/
def coordinatorCreateFailureMsg : String := "Unable to create sync coordinator"

/-- The expect message on the runtime builder in StateSync::bootstrap. -/
def runtimeCreateFailureMsg : String :=
  "[state synchronizer] failed to create runtime"

/-- StateSync::bootstrap_with_executor_proxy of state_sync.rs with its two
fallible collaborators as parameters: it first reads the local storage
state and panics on failure, then constructs the coordinator and panics on
failure, and only then spawns the coordinator task (the running outcome). -/
def bootstrap_with_executor_proxy (get_local_storage_state : Except String SyncingState)
    (coordinator_new : SyncingState → Except String Unit) : BootstrapOutcome :=
  match get_local_storage_state with
  | Except.error _ => BootstrapOutcome.fatalPanic storageStartFailureMsg
  | Except.ok initial_state =>
    match coordinator_new initial_state with
    | Except.error _ => BootstrapOutcome.fatalPanic coordinatorCreateFailureMsg
    | Except.ok _ => BootstrapOutcome.running initial_state

/-- StateSync::bootstrap of state_sync.rs: it first builds the runtime and
panics on failure, then delegates to bootstrap_with_executor_proxy. -/
def bootstrap (runtime_build : Except String Unit)
    (get_local_storage_state : Except String SyncingState)
    (coordinator_new : SyncingState → Except String Unit) : BootstrapOutcome :=
  match runtime_build with
  | Except.error _ => BootstrapOutcome.fatalPanic runtimeCreateFailureMsg
  | Except.ok _ => bootstrap_with_executor_proxy get_local_storage_state coordinator_new

/-- Modelled from the spec: application of one verified chunk by the
coordinator (coordinator.rs is not under src). The certifying ledger info
of the chunk is verified against the trusted epoch state; a stale chunk is
rejected; on success the SyncingState is replaced wholesale, re-derived
from the freshly committed ledger info, the new tree state, and the
current epoch state (so an embedded next-epoch state rotates trust). -/
def applyChunk (s : SyncingState) (chunk_li : LedgerInfoWithSignatures) :
    Except String SyncingState :=
  match s.verify_ledger_info chunk_li with
  | Except.error e => Except.error e
  | Except.ok _ =>
    if s.committed_version < chunk_li.ledger_info.version then
      Except.ok (SyncingState.new chunk_li { version := some chunk_li.ledger_info.version }
        s.trusted_epoch_state)
    else Except.error "stale or duplicate chunk"

/-- Modelled from the spec: the coordinator applies a sequence of incoming
chunks in order, discarding the rest of the sequence at the first invalid
or stale chunk. -/
def applyChunks (s : SyncingState) : List LedgerInfoWithSignatures → SyncingState
  | [] => s
  | c :: cs =>
    match applyChunk s c with
    | Except.ok s2 => applyChunks s2 cs
    | Except.error _ => s

/-- Modelled from the spec: the coordinator handling of one sync request
(coordinator.rs is not under src). A target at or below the committed
ledger-info version is answered with immediate success; otherwise the
target is verified against the trusted epoch state and rejected with
storage untouched when verification fails; otherwise chunks are applied
and the callback is answered with success when the committed ledger info
reaches the target, or with a no-progress error with storage unmodified
relative to before the failed attempt. -/
def processSyncRequest (s : SyncingState) (target : LedgerInfoWithSignatures)
    (chunks : List LedgerInfoWithSignatures) : Except String Unit × SyncingState :=
  if target.ledger_info.version ≤ s.committed_version then (Except.ok (), s)
  else
    match s.verify_ledger_info target with
    | Except.error e => (Except.error e, s)
    | Except.ok _ =>
      if target.ledger_info.version ≤ (applyChunks s chunks).committed_version then
        (Except.ok (), applyChunks s chunks)
      else (Except.error "no progress toward sync target", s)

/-- Modelled from the spec: the storage-consistent inputs from which the
coordinator re-derives every SyncingState snapshot it installs: the synced
trees are at least at the committed ledger-info version, the epoch state
passed in is the epoch of the committed ledger info, and an embedded
next-epoch state carries the successor epoch number (epoch boundaries are
signaled by ledger infos embedding the next validator set). -/
def WellFormedSnapshotInputs (li : LedgerInfoWithSignatures) (trees : ExecutedTrees)
    (e : EpochState) : Prop :=
  li.ledger_info.version ≤ trees.version.getD 0 ∧
  e.epoch = li.ledger_info.epoch ∧
  ∀ n, li.ledger_info.next_epoch_state = some n → n.epoch = li.ledger_info.epoch + 1

/-- Modelled from the spec: the inbound events relevant to the
wait-until-initialized logic of the coordinator (coordinator.rs is not
under src): a WaitInitialize request carrying a callback id, or the synced
version reaching a new value. -/
inductive InitEvent where
  | waitInit (cb : Nat)
  | syncedTo (version : Nat)
  deriving DecidableEq

/-- Modelled from the spec: the coordinator bookkeeping for WaitInitialize
callbacks: whether the synced version has reached the waypoint at least
once since startup, the parked callback ids, and the callback ids already
answered with success. -/
structure InitTracker where
  initialized : Bool
  parked : List Nat
  answered : List Nat
  deriving DecidableEq

/-- Modelled from the spec: the tracker at startup, seeded from the synced
version the storage reports. -/
def initTracker (w v0 : Nat) : InitTracker :=
  { initialized := decide (w ≤ v0), parked := [], answered := [] }

/-- Modelled from the spec: one step of the wait-until-initialized logic:
a WaitInitialize request is answered immediately once initialized and
parked otherwise; when the synced version first reaches the waypoint, all
parked callbacks are answered and the node stays initialized. -/
def stepInit (w : Nat) (st : InitTracker) : InitEvent → InitTracker
  | InitEvent.waitInit cb =>
    if st.initialized then { st with answered := st.answered ++ [cb] }
    else { st with parked := st.parked ++ [cb] }
  | InitEvent.syncedTo v =>
    if st.initialized then st
    else if w ≤ v then
      { initialized := true, parked := [], answered := st.answered ++ st.parked }
    else st

/-- Running the wait-until-initialized logic over a sequence of events. -/
def runInit (w v0 : Nat) (events : List InitEvent) : InitTracker :=
  events.foldl (stepInit w) (initTracker w v0)

/-- The number of occurrences of a callback id in a list. -/
def countNat (cb : Nat) (l : List Nat) : Nat :=
  (l.filter fun x => decide (x = cb)).length

/-- The number of WaitInitialize events carrying a given callback id. -/
def countWaitEvents (cb : Nat) (events : List InitEvent) : Nat :=
  (events.filter fun e => decide (e = InitEvent.waitInit cb)).length

/-- An example validator holding all the voting power. -/
def exampleValidator : ValidatorConsensusInfo :=
  { address := 1, public_key := 2, voting_power := 1 }

/-- An example epoch state whose quorum is the example validator alone. -/
def exampleEpochState : EpochState :=
  { epoch := 0, verifier := { validator_infos := [exampleValidator], quorum_voting_power := 1 } }

/-- An example ledger info at version 0 of epoch 0 with no epoch change. -/
def exampleLedgerInfo : LedgerInfo :=
  { epoch := 0, version := 0, consensus_data_hash := 3, next_epoch_state := none }

/-- The example ledger info signed by the example validator. -/
def exampleSignedLi : LedgerInfoWithSignatures :=
  { ledger_info := exampleLedgerInfo, signatures := [(1, Nat.pair 2 3)] }

/-- An example syncing state built from the example data. -/
def exampleState : SyncingState :=
  SyncingState.new exampleSignedLi { version := none } exampleEpochState

theorem countNat_nil (cb : Nat) : countNat cb [] = 0 := rfl

theorem countNat_append (cb : Nat) (l1 l2 : List Nat) :
    countNat cb (l1 ++ l2) = countNat cb l1 + countNat cb l2 := by
  simp [countNat, List.filter_append]

theorem countNat_singleton (cb c : Nat) : countNat cb [c] = if c = cb then 1 else 0 := by
  by_cases h : c = cb <;> simp [countNat, h]

theorem countWaitEvents_nil (cb : Nat) : countWaitEvents cb [] = 0 := rfl

theorem countWaitEvents_cons (cb : Nat) (e : InitEvent) (es : List InitEvent) :
    countWaitEvents cb (e :: es) =
      (if e = InitEvent.waitInit cb then 1 else 0) + countWaitEvents cb es := by
  by_cases h : e = InitEvent.waitInit cb <;>
    simp [countWaitEvents, h, Nat.add_comm]

/-- Claim C2: the SyncingState constructor derives the trusted epoch state
as the next-epoch state embedded in the committed ledger info when one is
present, and as the epoch state passed in otherwise. -/
theorem syncing_state_new_trusted_epoch_state (li : LedgerInfoWithSignatures)
    (trees : ExecutedTrees) (e : EpochState) :
    (∀ n, li.ledger_info.next_epoch_state = some n →
      (SyncingState.new li trees e).trusted_epoch_state = n) ∧
    (li.ledger_info.next_epoch_state = none →
      (SyncingState.new li trees e).trusted_epoch_state = e) := by
  constructor
  · intro n hn; simp [SyncingState.new, hn]
  · intro hn; simp [SyncingState.new, hn]

/-- Witness for C2 at a concrete ledger info carrying no next-epoch state. -/
theorem syncing_state_new_trusted_epoch_state_witness :
    exampleSignedLi.ledger_info.next_epoch_state = none ∧
    (SyncingState.new exampleSignedLi { version := none }
      exampleEpochState).trusted_epoch_state = exampleEpochState :=
  ⟨rfl, (syncing_state_new_trusted_epoch_state exampleSignedLi { version := none }
    exampleEpochState).2 rfl⟩

/-- Claim C9: when the synced trees carry no version, synced_version
returns 0 (the unwrap_or(0) default); being a total function it never
fails at this edge case. -/
theorem synced_version_empty_trees (s : SyncingState)
    (h : s.synced_trees.version = none) : s.synced_version = 0 := by
  simp [SyncingState.synced_version, h]

/-- Witness for C9 at the example state whose trees are empty. -/
theorem synced_version_empty_trees_witness :
    exampleState.synced_trees.version = none ∧ exampleState.synced_version = 0 :=
  ⟨rfl, synced_version_empty_trees exampleState rfl⟩

/-- Claim C10: every accessor of SyncingState, in borrow-passing form,
returns the value of the corresponding pure read and leaves the snapshot
unchanged: reading or verifying never mutates the state. -/
theorem syncing_state_accessors_pure (s : SyncingState)
    (li : LedgerInfoWithSignatures) :
    s.committed_epochM = (s.committed_epoch, s) ∧
    s.committed_ledger_infoM = (s.committed_ledger_info, s) ∧
    s.committed_versionM = (s.committed_version, s) ∧
    s.synced_versionM = (s.synced_version, s) ∧
    s.trusted_epochM = (s.trusted_epoch, s) ∧
    s.verify_ledger_infoM li = (s.verify_ledger_info li, s) :=
  ⟨rfl, rfl, rfl, rfl, rfl, rfl⟩

/-- Claim C4: commit awaits the coordinator reply under the 5 second bound
of Duration::from_secs(5); when the bound elapses it returns the no-ack
error, which is neither a success nor the application-level rejection
carrying a message. -/
theorem commit_ack_timeout_distinct :
    commitAckTimeoutSecs = 5 ∧
    handleCommitCallback CommitCallbackOutcome.timedOut =
      Except.error CommitError.ackTimeout ∧
    (Except.error CommitError.ackTimeout ≠ (Except.ok () : Except CommitError Unit)) ∧
    ∀ m : String, CommitError.ackTimeout ≠ CommitError.commitRejected m := by
  refine ⟨rfl, rfl, ?_, ?_⟩
  · intro h; exact Except.noConfusion h
  · intro m h; exact CommitError.noConfusion h

/-- Witness for C4 at a concrete rejection message. -/
theorem commit_ack_timeout_distinct_witness :
    handleCommitCallback CommitCallbackOutcome.timedOut =
      Except.error CommitError.ackTimeout ∧
    CommitError.ackTimeout ≠ CommitError.commitRejected "rejected" :=
  ⟨commit_ack_timeout_distinct.2.1, commit_ack_timeout_distinct.2.2.2 "rejected"⟩

/-- Claim C5: a CommitResponse received within the timeout yields success
exactly when its msg field is the empty string, and an error carrying the
message when it is non-empty. -/
theorem commit_response_msg_semantics (msg : String) :
    (handleCommitCallback (CommitCallbackOutcome.response { msg := msg }) =
      Except.ok () ↔ msg = "") ∧
    (msg ≠ "" → handleCommitCallback (CommitCallbackOutcome.response { msg := msg }) =
      Except.error (CommitError.commitRejected msg)) := by
  by_cases h : msg = "" <;> simp [handleCommitCallback, h]

/-- Witness for C5 at the empty and a non-empty message. -/
theorem commit_response_msg_semantics_witness :
    handleCommitCallback (CommitCallbackOutcome.response { msg := "" }) =
      Except.ok () ∧
    handleCommitCallback (CommitCallbackOutcome.response { msg := "bad txn" }) =
      Except.error (CommitError.commitRejected "bad txn") :=
  ⟨(commit_response_msg_semantics "").1.mpr rfl,
    (commit_response_msg_semantics "bad txn").2 (by decide)⟩

/-- Claim C6: verify_ledger_info delegates to the currently trusted epoch
state, succeeds exactly when the epoch matches and the signed voting power
meets quorum, and is side-effect-free: the snapshot is unchanged. -/
theorem verify_ledger_info_spec (s : SyncingState) (li : LedgerInfoWithSignatures) :
    s.verify_ledger_info li = s.trusted_epoch_state.verify li ∧
    (s.verify_ledger_info li = Except.ok () ↔
      li.ledger_info.epoch = s.trusted_epoch_state.epoch ∧
      s.trusted_epoch_state.verifier.quorum_voting_power ≤
        signedVotingPower s.trusted_epoch_state.verifier li) ∧
    s.verify_ledger_infoM li = (s.verify_ledger_info li, s) := by
  refine ⟨rfl, ?_, rfl⟩
  unfold SyncingState.verify_ledger_info EpochState.verify
  split_ifs with h1 h2
  · simp [h1]
  · push_neg at h1
    simp [h1]
    omega
  · push_neg at h1
    simp [h1, Nat.not_lt.mp h2]

/-- Witness for C6: the example state accepts the example ledger info,
which the example validator signed with full voting power. -/
theorem verify_ledger_info_spec_witness :
    exampleState.verify_ledger_info exampleSignedLi = Except.ok () :=
  (verify_ledger_info_spec exampleState exampleSignedLi).2.1.mpr
    ⟨by decide, by decide⟩

theorem processSyncRequest_cases (s : SyncingState) (target : LedgerInfoWithSignatures)
    (chunks : List LedgerInfoWithSignatures) :
    (∃ s2, processSyncRequest s target chunks = (Except.ok (), s2) ∧
      target.ledger_info.version ≤ s2.committed_version) ∨
    ∃ e, processSyncRequest s target chunks = (Except.error e, s) := by
  unfold processSyncRequest
  by_cases h1 : target.ledger_info.version ≤ s.committed_version
  · simp only [if_pos h1]
    exact Or.inl ⟨s, rfl, h1⟩
  · simp only [if_neg h1]
    cases hv : s.verify_ledger_info target with
    | error e => exact Or.inr ⟨e, rfl⟩
    | ok u =>
      by_cases h2 : target.ledger_info.version ≤ (applyChunks s chunks).committed_version
      · simp only [if_pos h2]
        exact Or.inl ⟨applyChunks s chunks, rfl, h2⟩
      · simp only [if_neg h2]
        exact Or.inr ⟨_, rfl⟩

/-- Claim C1: a processed sync_to request that is answered with success
leaves the committed ledger-info version at or above the target version,
and a request answered with any error leaves the committed ledger info
equal to its pre-call value. -/
theorem sync_to_success_bound_and_error_frame (s : SyncingState)
    (target : LedgerInfoWithSignatures) (chunks : List LedgerInfoWithSignatures) :
    ((processSyncRequest s target chunks).1 = Except.ok () →
      target.ledger_info.version ≤
        (processSyncRequest s target chunks).2.committed_version) ∧
    ∀ e, (processSyncRequest s target chunks).1 = Except.error e →
      (processSyncRequest s target chunks).2.committed_ledger_info =
        s.committed_ledger_info := by
  rcases processSyncRequest_cases s target chunks with ⟨s2, heq, hle⟩ | ⟨e, heq⟩
  · refine ⟨fun _ => ?_, fun e2 he => ?_⟩
    · rw [heq]; exact hle
    · rw [heq] at he; exact absurd he (by simp)
  · refine ⟨fun h => ?_, fun e2 he => ?_⟩
    · rw [heq] at h; exact absurd h (by simp)
    · rw [heq]

/-- Witness for C1: a target already at the committed version is answered
with success, and the committed version indeed bounds the target. -/
theorem sync_to_success_bound_and_error_frame_witness :
    (processSyncRequest exampleState exampleSignedLi []).1 = Except.ok () ∧
    exampleSignedLi.ledger_info.version ≤
      (processSyncRequest exampleState exampleSignedLi []).2.committed_version :=
  ⟨rfl, (sync_to_success_bound_and_error_frame exampleState exampleSignedLi []).1 rfl⟩

/-- Claim C3: a SyncingState re-derived from storage-consistent inputs
satisfies the snapshot invariant: the synced version is at least the
committed version, and the trusted epoch is the committed epoch or its
successor; every installed snapshot is constructed this way. -/
theorem syncing_state_invariant (li : LedgerInfoWithSignatures) (trees : ExecutedTrees)
    (e : EpochState) (h : WellFormedSnapshotInputs li trees e) :
    (SyncingState.new li trees e).committed_version ≤
      (SyncingState.new li trees e).synced_version ∧
    ((SyncingState.new li trees e).trusted_epoch =
        (SyncingState.new li trees e).committed_epoch ∨
      (SyncingState.new li trees e).trusted_epoch =
        (SyncingState.new li trees e).committed_epoch + 1) := by
  obtain ⟨h1, h2, h3⟩ := h
  constructor
  · simpa [SyncingState.new, SyncingState.committed_version,
      SyncingState.synced_version] using h1
  · cases hn : li.ledger_info.next_epoch_state with
    | none =>
      left
      simp [SyncingState.new, SyncingState.trusted_epoch,
        SyncingState.committed_epoch, hn, h2]
    | some n =>
      right
      simp [SyncingState.new, SyncingState.trusted_epoch,
        SyncingState.committed_epoch, hn, h3 n hn]

/-- Witness for C3 at concrete storage-consistent inputs. -/
theorem syncing_state_invariant_witness :
    WellFormedSnapshotInputs exampleSignedLi { version := some 4 } exampleEpochState ∧
    (SyncingState.new exampleSignedLi { version := some 4 }
        exampleEpochState).committed_version ≤
      (SyncingState.new exampleSignedLi { version := some 4 }
        exampleEpochState).synced_version ∧
    ((SyncingState.new exampleSignedLi { version := some 4 }
          exampleEpochState).trusted_epoch =
        (SyncingState.new exampleSignedLi { version := some 4 }
          exampleEpochState).committed_epoch ∨
      (SyncingState.new exampleSignedLi { version := some 4 }
          exampleEpochState).trusted_epoch =
        (SyncingState.new exampleSignedLi { version := some 4 }
          exampleEpochState).committed_epoch + 1) := by
  have hw : WellFormedSnapshotInputs exampleSignedLi { version := some 4 }
      exampleEpochState := by
    refine ⟨by decide, by decide, ?_⟩
    intro n hn
    simp [exampleSignedLi, exampleLedgerInfo] at hn
  exact ⟨hw, syncing_state_invariant exampleSignedLi { version := some 4 }
    exampleEpochState hw⟩

/-- Claim C7 counterexample: with the storage state read succeeding, the
expect on coordinator construction in bootstrap_with_executor_proxy is
another error path in the facade that terminates the node, contradicting
the claim that no error path other than the storage read does so. -/
theorem bootstrap_coordinator_failure_fatal :
    bootstrap_with_executor_proxy (Except.ok exampleState)
      (fun _ => Except.error "coordinator construction failed") =
      BootstrapOutcome.fatalPanic coordinatorCreateFailureMsg := rfl

/-- Claim C7 (amended): a failing storage read makes bootstrap fail fast
with the storage panic message, before any coordinator task is spawned (a
fatal outcome is never a running one); the only fatal error paths of the
facade are the bootstrap ones: runtime creation, the storage state read,
and coordinator construction. -/
theorem bootstrap_fatal_paths (g : Except String SyncingState)
    (c : SyncingState → Except String Unit) :
    (∀ e2, g = Except.error e2 →
      bootstrap (Except.ok ()) g c = BootstrapOutcome.fatalPanic storageStartFailureMsg) ∧
    (∀ e2, bootstrap (Except.error e2) g c =
      BootstrapOutcome.fatalPanic runtimeCreateFailureMsg) ∧
    ((∃ m, bootstrap (Except.ok ()) g c = BootstrapOutcome.fatalPanic m) ↔
      (∃ e2, g = Except.error e2) ∨ ∃ s e2, g = Except.ok s ∧ c s = Except.error e2) ∧
    ∀ m s, BootstrapOutcome.fatalPanic m ≠ BootstrapOutcome.running s := by
  refine ⟨?_, ?_, ?_, ?_⟩
  · intro e2 he; subst he; rfl
  · intro e2; rfl
  · cases g with
    | error e2 => simp [bootstrap, bootstrap_with_executor_proxy]
    | ok s =>
      cases hc : c s with
      | error e2 => simp [bootstrap, bootstrap_with_executor_proxy, hc]
      | ok u => simp [bootstrap, bootstrap_with_executor_proxy, hc]
  · intro m s h; exact BootstrapOutcome.noConfusion h

/-- Witness for the amended C7 at a concrete failing storage read. -/
theorem bootstrap_fatal_paths_witness :
    bootstrap (Except.ok ()) (Except.error "storage read failed")
      (fun _ => Except.ok ()) = BootstrapOutcome.fatalPanic storageStartFailureMsg :=
  (bootstrap_fatal_paths (Except.error "storage read failed")
    (fun _ => Except.ok ())).1 "storage read failed" rfl

theorem stepInit_count_sum (w cb : Nat) (st : InitTracker) (e : InitEvent) :
    countNat cb (stepInit w st e).answered + countNat cb (stepInit w st e).parked =
      countNat cb st.answered + countNat cb st.parked +
        (if e = InitEvent.waitInit cb then 1 else 0) := by
  cases e with
  | waitInit c =>
    cases hi : st.initialized <;> by_cases hc : c = cb <;>
      simp [stepInit, hi, countNat_append, countNat_singleton, hc] <;> omega
  | syncedTo v =>
    cases hi : st.initialized with
    | true => simp [stepInit, hi]
    | false =>
      by_cases hw : w ≤ v <;>
        simp [stepInit, hi, hw, countNat_append, countNat_nil]

theorem stepInit_mono (w : Nat) (st : InitTracker) (e : InitEvent)
    (h : st.initialized = true) : (stepInit w st e).initialized = true := by
  cases e with
  | waitInit c => simp [stepInit, h]
  | syncedTo v => simp [stepInit, h]

theorem stepInit_inv_parked (w : Nat) (st : InitTracker) (e : InitEvent)
    (h : st.initialized = true → st.parked = []) :
    (stepInit w st e).initialized = true → (stepInit w st e).parked = [] := by
  cases e with
  | waitInit c =>
    cases hi : st.initialized with
    | true => intro _; simp [stepInit, hi, h hi]
    | false => simp [stepInit, hi]
  | syncedTo v =>
    cases hi : st.initialized with
    | true => intro _; simp [stepInit, hi, h hi]
    | false =>
      by_cases hw : w ≤ v
      · intro _; simp [stepInit, hi, hw]
      · simp [stepInit, hi, hw]

theorem stepInit_frozen (w : Nat) (st : InitTracker) (e : InitEvent)
    (h : (stepInit w st e).initialized = false) :
    (stepInit w st e).answered = st.answered ∧ st.initialized = false := by
  cases e with
  | waitInit c =>
    cases hi : st.initialized with
    | true => simp [stepInit, hi] at h
    | false => simp [stepInit, hi]
  | syncedTo v =>
    cases hi : st.initialized with
    | true => simp [stepInit, hi] at h
    | false =>
      by_cases hw : w ≤ v
      · simp [stepInit, hi, hw] at h
      · simp [stepInit, hi, hw]

theorem stepInit_init_iff (w : Nat) (st : InitTracker) (e : InitEvent) :
    (stepInit w st e).initialized = true ↔
      st.initialized = true ∨ ∃ v, InitEvent.syncedTo v = e ∧ w ≤ v := by
  cases e with
  | waitInit c =>
    cases hi : st.initialized with
    | true => simp [stepInit, hi]
    | false => simp [stepInit, hi]
  | syncedTo v =>
    cases hi : st.initialized with
    | true => simp [stepInit, hi]
    | false =>
      by_cases hw : w ≤ v
      · simp [stepInit, hi, hw]
      · simp [stepInit, hi, hw]

theorem foldl_count_sum (w cb : Nat) (es : List InitEvent) :
    ∀ st : InitTracker,
      countNat cb (es.foldl (stepInit w) st).answered +
        countNat cb (es.foldl (stepInit w) st).parked =
      countNat cb st.answered + countNat cb st.parked + countWaitEvents cb es := by
  induction es with
  | nil => intro st; simp [countWaitEvents]
  | cons e es ih =>
    intro st
    rw [List.foldl_cons, ih (stepInit w st e), countWaitEvents_cons]
    have := stepInit_count_sum w cb st e
    omega

theorem foldl_init_mono (w : Nat) (es : List InitEvent) :
    ∀ st : InitTracker, st.initialized = true →
      (es.foldl (stepInit w) st).initialized = true := by
  induction es with
  | nil => intro st h; simpa using h
  | cons e es ih =>
    intro st h
    rw [List.foldl_cons]
    exact ih _ (stepInit_mono w st e h)

theorem foldl_inv_parked (w : Nat) (es : List InitEvent) :
    ∀ st : InitTracker, (st.initialized = true → st.parked = []) →
      (es.foldl (stepInit w) st).initialized = true →
      (es.foldl (stepInit w) st).parked = [] := by
  induction es with
  | nil => intro st h; simpa using h
  | cons e es ih =>
    intro st h
    rw [List.foldl_cons]
    exact ih _ (stepInit_inv_parked w st e h)

theorem foldl_frozen (w : Nat) (es : List InitEvent) :
    ∀ st : InitTracker, (es.foldl (stepInit w) st).initialized = false →
      (es.foldl (stepInit w) st).answered = st.answered ∧ st.initialized = false := by
  induction es with
  | nil => intro st h; exact ⟨rfl, h⟩
  | cons e es ih =>
    intro st h
    rw [List.foldl_cons] at h ⊢
    obtain ⟨ha, hi⟩ := ih (stepInit w st e) h
    obtain ⟨ha2, hi2⟩ := stepInit_frozen w st e hi
    exact ⟨ha.trans ha2, hi2⟩

theorem foldl_init_char (w : Nat) (es : List InitEvent) :
    ∀ st : InitTracker,
      ((es.foldl (stepInit w) st).initialized = true ↔
        st.initialized = true ∨ ∃ v, InitEvent.syncedTo v ∈ es ∧ w ≤ v) := by
  induction es with
  | nil => intro st; simp
  | cons e es ih =>
    intro st
    rw [List.foldl_cons, ih (stepInit w st e), stepInit_init_iff]
    simp only [List.mem_cons]
    constructor
    · rintro ((h | ⟨v, hv, hw⟩) | ⟨v, hv, hw⟩)
      · exact Or.inl h
      · exact Or.inr ⟨v, Or.inl hv, hw⟩
      · exact Or.inr ⟨v, Or.inr hv, hw⟩
    · rintro (h | ⟨v, hv | hv, hw⟩)
      · exact Or.inl (Or.inl h)
      · exact Or.inl (Or.inr ⟨v, hv, hw⟩)
      · exact Or.inr ⟨v, hv, hw⟩

/-- Claim C8: a WaitInitialize request whose callback occurs exactly once
in the event sequence is answered with success or parked, exactly once in
total; it is answered exactly once when the synced version has reached the
waypoint at least once since startup, is still parked otherwise, and the
initialized flag holds exactly when the waypoint was reached at startup or
by some later synced version. -/
theorem wait_until_initialized_spec (w v0 cb : Nat) (events : List InitEvent)
    (hcb : countWaitEvents cb events = 1) :
    countNat cb (runInit w v0 events).answered +
      countNat cb (runInit w v0 events).parked = 1 ∧
    ((runInit w v0 events).initialized = true →
      countNat cb (runInit w v0 events).answered = 1 ∧
        countNat cb (runInit w v0 events).parked = 0) ∧
    ((runInit w v0 events).initialized = false →
      countNat cb (runInit w v0 events).answered = 0 ∧
        countNat cb (runInit w v0 events).parked = 1) ∧
    ((runInit w v0 events).initialized = true ↔
      w ≤ v0 ∨ ∃ v, InitEvent.syncedTo v ∈ events ∧ w ≤ v) := by
  simp only [runInit]
  have hsum := foldl_count_sum w cb events (initTracker w v0)
  rw [hcb] at hsum
  have h0 : countNat cb (initTracker w v0).answered = 0 := rfl
  have h1 : countNat cb (initTracker w v0).parked = 0 := rfl
  rw [h0, h1] at hsum
  refine ⟨by omega, ?_, ?_, ?_⟩
  · intro hi
    have hp := foldl_inv_parked w events (initTracker w v0) (fun _ => rfl) hi
    rw [hp, countNat_nil] at hsum
    exact ⟨by omega, by rw [hp, countNat_nil]⟩
  · intro hi
    obtain ⟨ha, _⟩ := foldl_frozen w events (initTracker w v0) hi
    rw [ha, h0] at hsum
    exact ⟨by rw [ha]; exact h0, by omega⟩
  · have h := foldl_init_char w events (initTracker w v0)
    simpa [initTracker] using h

/-- Witness for C8 at a concrete waypoint, startup version and event list. -/
theorem wait_until_initialized_spec_witness :
    countNat 7 (runInit 5 0 [InitEvent.waitInit 7, InitEvent.syncedTo 6]).answered +
      countNat 7 (runInit 5 0 [InitEvent.waitInit 7, InitEvent.syncedTo 6]).parked = 1 ∧
    ((runInit 5 0 [InitEvent.waitInit 7, InitEvent.syncedTo 6]).initialized = true →
      countNat 7 (runInit 5 0 [InitEvent.waitInit 7, InitEvent.syncedTo 6]).answered = 1 ∧
        countNat 7 (runInit 5 0 [InitEvent.waitInit 7, InitEvent.syncedTo 6]).parked = 0) ∧
    ((runInit 5 0 [InitEvent.waitInit 7, InitEvent.syncedTo 6]).initialized = false →
      countNat 7 (runInit 5 0 [InitEvent.waitInit 7, InitEvent.syncedTo 6]).answered = 0 ∧
        countNat 7 (runInit 5 0 [InitEvent.waitInit 7, InitEvent.syncedTo 6]).parked = 1) ∧
    ((runInit 5 0 [InitEvent.waitInit 7, InitEvent.syncedTo 6]).initialized = true ↔
      5 ≤ 0 ∨ ∃ v, InitEvent.syncedTo v ∈
        [InitEvent.waitInit 7, InitEvent.syncedTo 6] ∧ 5 ≤ v) :=
  wait_until_initialized_spec 5 0 7 [InitEvent.waitInit 7, InitEvent.syncedTo 6]
    (by decide)
